import Mathlib

/-!
Shallow embedding of `src/psygnal/_evented_decorator.py` (the `evented`
decorator of the psygnal repository) and verification of its specification.

The module defines one public function, `evented`, which either decorates a
class directly (when `cls` is not `None`) or returns the `_decorate` closure
(when `cls is None`).  `_decorate` rejects non-class arguments with
`TypeError("evented can only be used on classes")`, constructs a fresh
`SignalGroupDescriptor` holding the forwarded configuration options, calls
`descriptor.__set_name__(cls, events_namespace)`, binds the descriptor on the
class via `setattr(cls, events_namespace, descriptor)`, and returns the same
class object.

Python object identity is modelled by a natural-number uid; fresh object
allocation is modelled by a `Heap` carrying the next uid.  A class's attribute
dictionary is an association list with lookup semantics; mutation is modelled
functionally (the returned `PyClass` keeps the uid of the input, reflecting
in-place mutation of the same object).
-/

/-- The allocation state of the Python runtime: the next fresh object id.
Each `SignalGroupDescriptor(...)` construction consumes one id. -/
structure Heap where
  nextUid : Nat
deriving DecidableEq

/-- `SignalGroupDescriptor` object (constructed at line 146 of the source).
The descriptor class itself is defined in `_group_descriptor.py`, which is
outside the decorator module; per the spec's configuration surface its
constructor records the options passed to it, and `__set_name__` records the
attribute name it was installed under.  `uid` is the Python object identity of
this descriptor instance. -/
structure SignalGroupDescriptor where
  uid : Nat
  equality_operators : Option (List (String × Nat))
  warn_on_no_fields : Bool
  cache_on_instance : Bool
  alias_private_fields : Option Bool
  signal_suffix : String
  attrName : Option String
deriving DecidableEq

/-- A value stored in a class attribute slot: either a signal-group descriptor
or any other Python object (tracked by identity only). -/
inductive ClassAttr where
  | descriptor (d : SignalGroupDescriptor)
  | plain (uid : Nat)
deriving DecidableEq

/-- A Python class object.  `dataclassFields` is the constructor-declared
field list discoverable on the class (`none` when the class is not a
dataclass-like record type); `attrs` is the class attribute dictionary. -/
structure PyClass where
  uid : Nat
  dataclassFields : Option (List String)
  attrs : List (String × ClassAttr)
deriving DecidableEq

/-- A Python value passed as the `cls` argument (the `None` case is handled
separately, as `Option PyVal`): either a class object, or a non-class object
for which `isinstance(cls, type)` is false. -/
inductive PyVal where
  | cls (c : PyClass)
  | nonClass (uid : Nat)
deriving DecidableEq

/-- Exceptions raised by the decorator module. -/
inductive PyError where
  | typeError (msg : String)
deriving DecidableEq

/-- `getattr(c, name)` restricted to the class's own attribute dictionary. -/
def getAttr (c : PyClass) (name : String) : Option ClassAttr :=
  c.attrs.lookup name

/-- `setattr(c, name, v)`: rebind one key of the class attribute dictionary,
leaving every other binding untouched.  The uid and the declared field list of
the class are unchanged (the decorator never adds or removes fields). -/
def setAttr (c : PyClass) (name : String) (v : ClassAttr) : PyClass :=
  { c with attrs := (name, v) :: c.attrs.filter (fun p => p.1 != name) }

/-- The bundle of keyword options of `evented` (source lines 55-63). -/
structure EventedOpts where
  events_namespace : String
  equality_operators : Option (List (String × Nat))
  warn_on_no_fields : Bool
  cache_on_instance : Bool
  alias_private_fields : Option Bool
  signal_suffix : String
deriving DecidableEq

/-- The default keyword options of `evented` (source lines 58-63):
`events_namespace="events"`, `equality_operators=None`,
`warn_on_no_fields=True`, `cache_on_instance=True`,
`alias_private_fields=None`, `signal_suffix=""`. -/
def defaultOpts : EventedOpts :=
  { events_namespace := "events"
    equality_operators := none
    warn_on_no_fields := true
    cache_on_instance := true
    alias_private_fields := none
    signal_suffix := "" }

/-- `SignalGroupDescriptor(equality_operators=..., warn_on_no_fields=...,
cache_on_instance=..., alias_private_fields=..., signal_suffix=...)`
(source lines 146-152).  Modelled from the spec: the constructor body lives in
`_group_descriptor.py`, which is not part of this module; per the spec's
configuration surface it stores the supplied options on the new descriptor
object.  Constructing a Python object allocates a fresh identity. -/
def mkDescriptor (opts : EventedOpts) (h : Heap) : SignalGroupDescriptor × Heap :=
  (⟨h.nextUid, opts.equality_operators, opts.warn_on_no_fields,
    opts.cache_on_instance, opts.alias_private_fields, opts.signal_suffix,
    none⟩,
   ⟨h.nextUid + 1⟩)

/-- `descriptor.__set_name__(cls, name)` (called at source line 154).
Modelled from the spec: `SignalGroupDescriptor.__set_name__` is defined in
`_group_descriptor.py`, which is not part of this module; per the Python
descriptor protocol and the spec (the bootstrap attaches the lazily-evaluated
notification-group accessor under the configured namespace name) it records
the attribute name on the descriptor and changes nothing on the class. -/
def setName (d : SignalGroupDescriptor) (name : String) : SignalGroupDescriptor :=
  { d with attrName := some name }

/-- `_decorate(cls)` (source lines 142-156): raise
`TypeError("evented can only be used on classes")` when `cls` is not a class;
otherwise construct a fresh descriptor from the options, call its
`__set_name__`, bind it at `events_namespace` with `setattr`, and return the
same class object. -/
def decorate (opts : EventedOpts) (v : PyVal) (h : Heap) :
    Except PyError (PyClass × Heap) :=
  match v with
  | .nonClass _ => .error (.typeError "evented can only be used on classes")
  | .cls c =>
    let dh := mkDescriptor opts h
    let d := setName dh.1 opts.events_namespace
    .ok (setAttr c opts.events_namespace (.descriptor d), dh.2)

/-- The value returned by `evented`: either the result of applying `_decorate`
to the given class, or (when `cls is None`) the `_decorate` closure itself. -/
inductive EventedResult where
  | applied (r : Except PyError (PyClass × Heap))
  | decorator (f : PyVal → Heap → Except PyError (PyClass × Heap))

/-- `evented(cls=None, **options)` (source lines 55-158):
`return _decorate(cls) if cls is not None else _decorate`. -/
def evented (opts : EventedOpts) (cls : Option PyVal) (h : Heap) : EventedResult :=
  match cls with
  | some v => .applied (decorate opts v h)
  | none => .decorator (fun v h1 => decorate opts v h1)

/-- Per the spec, a record type is a type exposing a discoverable,
constructor-declared field list; any non-class value is not a record type. -/
def isRecordVal : PyVal → Bool
  | .cls c => c.dataclassFields.isSome
  | .nonClass _ => false

/-! ### Concrete objects used in counterexamples and witnesses -/

/-- A plain class with no dataclass-like fields: a class, but not a record
type. -/
def plainClass : PyClass := ⟨0, none, []⟩

/-- A dataclass-like record type with fields `name` and `age` and one ordinary
class attribute. -/
def recordClass : PyClass :=
  ⟨0, some ["name", "age"], [("age", .plain 7)]⟩

/-! ### Association-list lemmas for `setAttr` / `getAttr` -/

theorem lookup_filter_ne {β : Type} (l : List (String × β)) (m n : String)
    (hmn : m ≠ n) :
    (l.filter (fun p => p.1 != n)).lookup m = l.lookup m := by
  induction l with
  | nil => rfl
  | cons p t ih =>
    obtain ⟨k, w⟩ := p
    by_cases hk : k = n
    · subst hk
      have hm : (m == k) = false := by
        simp [hmn]
      simp [List.filter, List.lookup, hm, ih]
    · have hk2 : (k != n) = true := by
        simp [hk]
      simp only [List.filter, hk2, List.lookup, ih]

theorem getAttr_setAttr_same (c : PyClass) (n : String) (v : ClassAttr) :
    getAttr (setAttr c n v) n = some v := by
  simp [getAttr, setAttr, List.lookup]

theorem getAttr_setAttr_ne (c : PyClass) (m n : String) (v : ClassAttr)
    (hmn : m ≠ n) :
    getAttr (setAttr c n v) m = getAttr c m := by
  have hm : (m == n) = false := by simp [hmn]
  simp [getAttr, setAttr, List.lookup, hm, lookup_filter_ne c.attrs m n hmn]

/-- The class `recordClass` after one application of `evented` with default
options at heap `⟨1⟩`: the fresh descriptor (uid 1) is bound at `events`. -/
def onceDecorated : PyClass :=
  ⟨0, some ["name", "age"],
   [("events", .descriptor ⟨1, none, true, true, none, "", some "events"⟩),
    ("age", .plain 7)]⟩

/-- The class after a second application of `evented` at heap `⟨2⟩`: a second,
distinct descriptor (uid 2) has replaced the first. -/
def twiceDecorated : PyClass :=
  ⟨0, some ["name", "age"],
   [("events", .descriptor ⟨2, none, true, true, none, "", some "events"⟩),
    ("age", .plain 7)]⟩

/-! ### Claim theorems -/

/-- C1 (counterexample): the claim says every input that is not a record type
fails with a configuration error at configuration time.  `plainClass` is a
class but not a record type (it exposes no constructor-declared field list),
yet `_decorate` accepts it and installs the descriptor without raising: only
non-class inputs are rejected. -/
theorem nonrecord_class_accepted :
    isRecordVal (.cls plainClass) = false ∧
    decorate defaultOpts (.cls plainClass) ⟨1⟩ =
      .ok (⟨0, none,
            [("events",
              .descriptor ⟨1, none, true, true, none, "", some "events"⟩)]⟩,
           ⟨2⟩) :=
  ⟨rfl, rfl⟩

/-- C1 (amended): for every non-class argument, `evented` with a non-None
argument fails immediately at configuration time with the configuration-time
error, realized as `TypeError("evented can only be used on classes")`; class
arguments are never rejected at configuration time, record type or not. -/
theorem nonclass_rejected_at_configuration (opts : EventedOpts) (u : Nat)
    (h : Heap) :
    evented opts (some (.nonClass u)) h =
      .applied (.error (.typeError "evented can only be used on classes")) :=
  rfl

/-- C2 (counterexample): the claim says re-applying `evented` to an
already-configured class is a no-op or fails with a configuration error, and
never installs a second distinct descriptor.  Applying `evented` with default
options twice to `recordClass` succeeds both times, the second application is
not a no-op, and it binds a second descriptor distinct from the first. -/
theorem double_decoration_installs_distinct_descriptor :
    decorate defaultOpts (.cls recordClass) ⟨1⟩ = .ok (onceDecorated, ⟨2⟩) ∧
    decorate defaultOpts (.cls onceDecorated) ⟨2⟩ = .ok (twiceDecorated, ⟨3⟩) ∧
    twiceDecorated ≠ onceDecorated ∧
    getAttr twiceDecorated "events" ≠ getAttr onceDecorated "events" :=
  ⟨rfl, rfl, by decide, by decide⟩

/-- C2 (amended): re-applying `evented` to an already-configured class always
succeeds without error and installs a freshly constructed descriptor, distinct
from the one already bound, over the configured namespace attribute; it is
never a no-op. -/
theorem double_decoration_overwrites (opts : EventedOpts) (c : PyClass)
    (h : Heap) (d0 : SignalGroupDescriptor)
    (hd : getAttr c opts.events_namespace = some (.descriptor d0))
    (hfresh : d0.uid < h.nextUid) :
    ∃ c2, decorate opts (.cls c) h = .ok (c2, ⟨h.nextUid + 1⟩) ∧
      (∃ d1, getAttr c2 opts.events_namespace = some (.descriptor d1) ∧
        d1.uid ≠ d0.uid) ∧
      c2 ≠ c := by
  refine ⟨setAttr c opts.events_namespace
      (.descriptor (setName (mkDescriptor opts h).1 opts.events_namespace)),
    rfl,
    ⟨setName (mkDescriptor opts h).1 opts.events_namespace,
      getAttr_setAttr_same c opts.events_namespace _, ?_⟩, ?_⟩
  · exact ne_of_gt hfresh
  · intro hc
    have h2 := congrArg (fun x => getAttr x opts.events_namespace) hc
    simp only [getAttr_setAttr_same, hd] at h2
    have h3 : (setName (mkDescriptor opts h).1 opts.events_namespace) = d0 := by
      simpa using h2
    have h4 : h.nextUid = d0.uid := congrArg SignalGroupDescriptor.uid h3
    omega

/-- C2 (witness): the amended theorem applied to the concrete
already-decorated class `onceDecorated`. -/
theorem double_decoration_overwrites_witness :
    ∃ c2, decorate defaultOpts (.cls onceDecorated) ⟨2⟩ = .ok (c2, ⟨3⟩) ∧
      (∃ d1, getAttr c2 "events" = some (.descriptor d1) ∧ d1.uid ≠ 1) ∧
      c2 ≠ onceDecorated :=
  double_decoration_overwrites defaultOpts onceDecorated ⟨2⟩
    ⟨1, none, true, true, none, "", some "events"⟩ rfl (by decide)

/-- C3: for every class argument, `_decorate` returns the very same class
object (same identity), with the configured namespace attribute now bound to a
signal-group descriptor that was told its name, and the call allocates exactly
one new object (the descriptor). -/
theorem evented_returns_same_class_with_descriptor (opts : EventedOpts)
    (c : PyClass) (h : Heap) :
    ∃ c2, decorate opts (.cls c) h = .ok (c2, ⟨h.nextUid + 1⟩) ∧
      c2.uid = c.uid ∧
      ∃ d, getAttr c2 opts.events_namespace = some (.descriptor d) ∧
        d.attrName = some opts.events_namespace :=
  ⟨setAttr c opts.events_namespace
      (.descriptor (setName (mkDescriptor opts h).1 opts.events_namespace)),
   rfl, rfl,
   setName (mkDescriptor opts h).1 opts.events_namespace,
   getAttr_setAttr_same c opts.events_namespace _, rfl⟩

/-- C4: when the namespace option is not supplied, the default is `"events"`,
and `evented` applied with default options installs the descriptor at the
class attribute `events`. -/
theorem default_namespace_is_events (c : PyClass) (h : Heap) :
    defaultOpts.events_namespace = "events" ∧
    ∃ c2 h2, decorate defaultOpts (.cls c) h = .ok (c2, h2) ∧
      ∃ d, getAttr c2 "events" = some (.descriptor d) :=
  ⟨rfl, setAttr c "events"
      (.descriptor (setName (mkDescriptor defaultOpts h).1 "events")),
   ⟨h.nextUid + 1⟩, rfl,
   setName (mkDescriptor defaultOpts h).1 "events",
   getAttr_setAttr_same c "events" _⟩

/-- C5: when the storage-strategy option is not supplied, the default value of
`cache_on_instance` passed to the descriptor is `True`. -/
theorem default_cache_on_instance_true (c : PyClass) (h : Heap) :
    defaultOpts.cache_on_instance = true ∧
    ∃ c2 h2 d, decorate defaultOpts (.cls c) h = .ok (c2, h2) ∧
      getAttr c2 "events" = some (.descriptor d) ∧
      d.cache_on_instance = true :=
  ⟨rfl, setAttr c "events"
      (.descriptor (setName (mkDescriptor defaultOpts h).1 "events")),
   ⟨h.nextUid + 1⟩,
   setName (mkDescriptor defaultOpts h).1 "events",
   rfl, getAttr_setAttr_same c "events" _, rfl⟩

/-- C6: when the suffix option is not supplied, the default value of
`signal_suffix` forwarded to the descriptor is the empty string. -/
theorem default_signal_suffix_empty (c : PyClass) (h : Heap) :
    defaultOpts.signal_suffix = "" ∧
    ∃ c2 h2 d, decorate defaultOpts (.cls c) h = .ok (c2, h2) ∧
      getAttr c2 "events" = some (.descriptor d) ∧
      d.signal_suffix = "" :=
  ⟨rfl, setAttr c "events"
      (.descriptor (setName (mkDescriptor defaultOpts h).1 "events")),
   ⟨h.nextUid + 1⟩,
   setName (mkDescriptor defaultOpts h).1 "events",
   rfl, getAttr_setAttr_same c "events" _, rfl⟩

/-- C7: when the private-field aliasing option is not supplied, the default
value of `alias_private_fields` forwarded to the descriptor is the
pass-through setting, `None`. -/
theorem default_alias_private_fields_passthrough (c : PyClass) (h : Heap) :
    defaultOpts.alias_private_fields = none ∧
    ∃ c2 h2 d, decorate defaultOpts (.cls c) h = .ok (c2, h2) ∧
      getAttr c2 "events" = some (.descriptor d) ∧
      d.alias_private_fields = none :=
  ⟨rfl, setAttr c "events"
      (.descriptor (setName (mkDescriptor defaultOpts h).1 "events")),
   ⟨h.nextUid + 1⟩,
   setName (mkDescriptor defaultOpts h).1 "events",
   rfl, getAttr_setAttr_same c "events" _, rfl⟩

/-- C8: when the empty-descriptor warning option is not supplied, the default
value of `warn_on_no_fields` forwarded to the descriptor is `True`. -/
theorem default_warn_on_no_fields_true (c : PyClass) (h : Heap) :
    defaultOpts.warn_on_no_fields = true ∧
    ∃ c2 h2 d, decorate defaultOpts (.cls c) h = .ok (c2, h2) ∧
      getAttr c2 "events" = some (.descriptor d) ∧
      d.warn_on_no_fields = true :=
  ⟨rfl, setAttr c "events"
      (.descriptor (setName (mkDescriptor defaultOpts h).1 "events")),
   ⟨h.nextUid + 1⟩,
   setName (mkDescriptor defaultOpts h).1 "events",
   rfl, getAttr_setAttr_same c "events" _, rfl⟩

/-- C9: calling `evented` with `cls=None` returns a function, and applying
that function to any value at any allocation state yields exactly the result
of calling `evented` directly on that value with the same options. -/
theorem evented_curried_equivalence (opts : EventedOpts) (h : Heap) :
    ∃ f, evented opts none h = .decorator f ∧
      ∀ v h2, EventedResult.applied (f v h2) = evented opts (some v) h2 :=
  ⟨fun v h2 => decorate opts v h2, rfl, fun _ _ => rfl⟩

/-- C10: the decorator sets only the single class attribute named by
`events_namespace`; every other attribute, the class identity, and the
declared field list are left unchanged. -/
theorem decorate_frame_property (opts : EventedOpts) (c : PyClass) (h : Heap)
    (n : String) (hn : n ≠ opts.events_namespace) :
    ∃ c2 h2, decorate opts (.cls c) h = .ok (c2, h2) ∧
      getAttr c2 n = getAttr c n ∧
      c2.uid = c.uid ∧ c2.dataclassFields = c.dataclassFields :=
  ⟨setAttr c opts.events_namespace
      (.descriptor (setName (mkDescriptor opts h).1 opts.events_namespace)),
   ⟨h.nextUid + 1⟩, rfl,
   getAttr_setAttr_ne c n opts.events_namespace _ hn, rfl, rfl⟩

/-- C10 (witness): the frame property at the concrete class `recordClass` and
the attribute `age`, distinct from the default namespace `events`. -/
theorem decorate_frame_property_witness :
    "age" ≠ defaultOpts.events_namespace ∧
    (∃ c2 h2, decorate defaultOpts (.cls recordClass) ⟨1⟩ = .ok (c2, h2) ∧
      getAttr c2 "age" = getAttr recordClass "age" ∧
      c2.uid = recordClass.uid ∧
      c2.dataclassFields = recordClass.dataclassFields) :=
  ⟨by decide, decorate_frame_property defaultOpts recordClass ⟨1⟩ "age"
    (by decide)⟩
